import Mathlib

/-!
Shallow embedding of the cyber-tomato-cli pomodoro timer (src/main.rs) and
its procedural audio synthesis (src/audio.rs, src/mario_animation.rs).

Modelling conventions:
* `Instant` and timer `Duration` values are natural numbers of abstract clock
  units (the Rust code only ever compares and subtracts `Duration` values built
  with `from_secs`, so units are seconds for the timer model); the current
  instant `now` is passed explicitly to every operation that reads the clock.
* Audio tone durations are natural numbers of nanoseconds, the resolution of
  Rust `std::time::Duration`; `Duration::as_secs_f32` is modelled by exact
  rational arithmetic (`durationAsSecs`).  Rust computes this value in `f32`;
  every theorem that depends on a concrete count uses inputs at which the
  `f32` computation is exact, so the rational model agrees with the binary one.
* Side effects on the audio backend (`rodio`) are modelled as explicit traces
  of `AudioAction`s returned by the corresponding functions; the fallibility
  of opening the output device and sink is modelled by boolean parameters
  (`deviceOk`, `sinkOk`) standing for the `Ok`/`Err` result of
  `rodio::OutputStream::try_default()` and `rodio::Sink::try_new`.
* The `MarioAnimation` particle animation is decorative and out of scope;
  the `PomodoroTimer` keeps only its `show_mario_animation` flag, and the
  animation's own audio initialisation/guard logic is modelled separately
  (`MarioAnimationAudio`) for the no-audio-hardware claims.
-/

/-- Timer interval kind, `enum TimerType` in src/main.rs. -/
inductive TimerType where
  | Work
  | Break
deriving DecidableEq, Repr

/-- Timer mode, `enum TimerMode` in src/main.rs. -/
inductive TimerMode where
  | Auto
  | Manual
deriving DecidableEq, Repr

/-- The other interval kind; used only to state properties about the
auto-cycle (Work to Break and back). -/
def TimerType.opposite : TimerType → TimerType
  | TimerType.Work => TimerType.Break
  | TimerType.Break => TimerType.Work

/-- `struct PomodoroSession` of src/main.rs: one active interval.
`duration`, `elapsed` are timer durations (abstract units, see header);
`start_time` is the instant of the last resume, `none` while paused. -/
structure PomodoroSession where
  timer_type : TimerType
  duration : Nat
  elapsed : Nat
  is_running : Bool
  start_time : Option Nat
deriving DecidableEq, Repr

/-- `struct PomodoroTimer` of src/main.rs.  The `mario_animation` object and
the field-less `audio_manager` are omitted (see header); all remaining fields
are kept. -/
structure PomodoroTimer where
  current_session : PomodoroSession
  mode : TimerMode
  completed_sessions : Nat
  show_controls_popup : Bool
  show_custom_input : Bool
  custom_input : String
  show_mario_animation : Bool
  custom_work_duration : Nat
  custom_break_duration : Nat
deriving DecidableEq, Repr

/-- `PomodoroTimer::new` (src/main.rs lines 71-93); the Rust constructor
always returns `Ok`, so the `Result` wrapper is dropped. -/
def PomodoroTimer.new : PomodoroTimer :=
  { current_session :=
      { timer_type := TimerType.Work
        duration := 25 * 60
        elapsed := 0
        is_running := false
        start_time := none }
    mode := TimerMode.Auto
    completed_sessions := 0
    show_controls_popup := false
    show_custom_input := false
    custom_input := ""
    show_mario_animation := false
    custom_work_duration := 25 * 60
    custom_break_duration := 5 * 60 }

/-- `PomodoroTimer::start_timer` (src/main.rs lines 95-103). -/
def PomodoroTimer.start_timer (t : PomodoroTimer) (ty : TimerType) (d : Nat)
    (now : Nat) : PomodoroTimer :=
  { t with current_session :=
      { timer_type := ty
        duration := d
        elapsed := 0
        is_running := true
        start_time := some now } }

/-- `PomodoroTimer::start_work_session` (src/main.rs lines 105-107). -/
def PomodoroTimer.start_work_session (t : PomodoroTimer) (now : Nat) :
    PomodoroTimer :=
  t.start_timer TimerType.Work t.custom_work_duration now

/-- `PomodoroTimer::start_break_session` (src/main.rs lines 109-111). -/
def PomodoroTimer.start_break_session (t : PomodoroTimer) (now : Nat) :
    PomodoroTimer :=
  t.start_timer TimerType.Break t.custom_break_duration now

/-- `PomodoroTimer::start_custom_session` (src/main.rs lines 113-122).
Minutes are `u32` in Rust and the `work_mins * 60` product is 32-bit, so the
multiplication is taken modulo 2^32 (release-build wrapping semantics). -/
def PomodoroTimer.start_custom_session (t : PomodoroTimer) (work_mins : Nat)
    (break_mins : Option Nat) (now : Nat) : PomodoroTimer :=
  let t1 := { t with custom_work_duration := (work_mins * 60) % 2 ^ 32 }
  let t2 :=
    match break_mins with
    | some b => { t1 with custom_break_duration := (b * 60) % 2 ^ 32 }
    | none => { t1 with custom_break_duration := 5 * 60 }
  t2.start_work_session now

/-- `PomodoroTimer::pause_timer` (src/main.rs lines 191-199). -/
def PomodoroTimer.pause_timer (t : PomodoroTimer) (now : Nat) : PomodoroTimer :=
  if t.current_session.is_running then
    let s :=
      match t.current_session.start_time with
      | some st => { t.current_session with
          elapsed := t.current_session.elapsed + (now - st) }
      | none => t.current_session
    { t with current_session := { s with is_running := false, start_time := none } }
  else t

/-- `PomodoroTimer::resume_timer` (src/main.rs lines 201-206). -/
def PomodoroTimer.resume_timer (t : PomodoroTimer) (now : Nat) : PomodoroTimer :=
  if t.current_session.is_running then t
  else
    { t with current_session :=
        { t.current_session with is_running := true, start_time := some now } }

/-- `PomodoroTimer::toggle_timer` (src/main.rs lines 183-189). -/
def PomodoroTimer.toggle_timer (t : PomodoroTimer) (now : Nat) : PomodoroTimer :=
  if t.current_session.is_running then t.pause_timer now else t.resume_timer now

/-- `PomodoroTimer::toggle_mode` (src/main.rs lines 236-241). -/
def PomodoroTimer.toggle_mode (t : PomodoroTimer) : PomodoroTimer :=
  { t with mode :=
      match t.mode with
      | TimerMode.Manual => TimerMode.Auto
      | TimerMode.Auto => TimerMode.Manual }

/-- `PomodoroTimer::get_timer_progress` (src/main.rs lines 243-255):
returns (current elapsed, total duration). -/
def PomodoroTimer.get_timer_progress (t : PomodoroTimer) (now : Nat) :
    Nat × Nat :=
  let current_elapsed :=
    if t.current_session.is_running then
      match t.current_session.start_time with
      | some st => t.current_session.elapsed + (now - st)
      | none => t.current_session.elapsed
    else t.current_session.elapsed
  (current_elapsed, t.current_session.duration)

/-- `PomodoroTimer::is_timer_finished` (src/main.rs lines 275-278). -/
def PomodoroTimer.is_timer_finished (t : PomodoroTimer) (now : Nat) : Bool :=
  let p := t.get_timer_progress now
  decide (p.2 ≤ p.1)

/-- The remaining-time computation of the display (src/main.rs lines 283-284):
`if total > elapsed { total - elapsed } else { 0 }`, which on naturals is
truncated subtraction. -/
def PomodoroTimer.remaining_time (t : PomodoroTimer) (now : Nat) : Nat :=
  let p := t.get_timer_progress now
  p.2 - p.1

example : PomodoroTimer.new.current_session.is_running = false := by decide

example :
    ((PomodoroTimer.new.start_timer TimerType.Work 2 0).get_timer_progress 1).1
      = 1 := by decide

example :
    (PomodoroTimer.new.start_timer TimerType.Work 2 0).is_timer_finished 3
      = true := by decide

/-- Nanoseconds of `Duration::from_millis(n)`. -/
def millis (n : Nat) : Nat := n * 1000000

/-- `Duration::as_secs_f32` modelled exactly: a duration of `nanos`
nanoseconds is `nanos / 10^9` seconds (see the header for the `f32` caveat). -/
def durationAsSecs (nanos : Nat) : ℚ := (nanos : ℚ) / 10 ^ 9

/-- `struct SquareWaveWithDecay` (src/audio.rs lines 83-89).  `duration` is in
nanoseconds; `freq` is the tone frequency in Hz. -/
structure SquareWaveWithDecay where
  freq : ℚ
  duration : Nat
  sample_rate : Nat
  sample_idx : Nat
  total_samples : Nat
deriving DecidableEq, Repr

/-- `SquareWaveWithDecay::new` (src/audio.rs lines 91-102).  The sample count
`(duration.as_secs_f32() * sample_rate as f32) as usize` truncates toward zero
(saturating at 0), which on the nonnegative value here is the floor. -/
def SquareWaveWithDecay.new (freq : ℚ) (duration : Nat) (sample_rate : Nat) :
    SquareWaveWithDecay :=
  { freq := freq
    duration := duration
    sample_rate := sample_rate
    sample_idx := 0
    total_samples := Int.toNat ⌊durationAsSecs duration * (sample_rate : ℚ)⌋ }

/-- The sample value computed by `Iterator::next` for `SquareWaveWithDecay`
(src/audio.rs lines 112-126): band-limited square wave (fundamental plus 3rd
and 5th harmonics, weights 1, 1/3, 1/5, normalised by 4/pi), exponential decay
envelope `0.3 * exp(-20 t)` and a linear fade over the final 5 ms. -/
noncomputable def sampleValue (freq : ℚ) (duration : Nat) (sample_rate : Nat)
    (sample_idx : Nat) : ℝ :=
  let t : ℝ := (sample_idx : ℝ) / (sample_rate : ℝ)
  let phase : ℝ := 2 * Real.pi * (freq : ℝ) * t
  let wave : ℝ := (1 * Real.sin phase + 1 / 3 * Real.sin (3 * phase)
      + 1 / 5 * Real.sin (5 * phase)) * (4 / Real.pi)
  let env : ℝ := 0.3 * Real.exp (-20 * t)
  let tail_start : ℝ := ((durationAsSecs duration : ℚ) : ℝ) - 0.005
  let fade : ℝ :=
    if tail_start ≤ t then
      max 0 (min ((((durationAsSecs duration : ℚ) : ℝ) - t) / 0.005) 1)
    else 1
  wave * env * fade

/-- `Iterator::next` for `SquareWaveWithDecay` (src/audio.rs lines 107-129):
returns `none` once `sample_idx` reaches `total_samples`, otherwise the next
sample and the advanced state. -/
noncomputable def SquareWaveWithDecay.next (s : SquareWaveWithDecay) :
    Option ℝ × SquareWaveWithDecay :=
  if s.total_samples ≤ s.sample_idx then (none, s)
  else
    (some (sampleValue s.freq s.duration s.sample_rate s.sample_idx),
      { s with sample_idx := s.sample_idx + 1 })

/-- Driving `next` to exhaustion from state `s`: the finite list of samples
the iterator still produces. -/
noncomputable def SquareWaveWithDecay.emit (s : SquareWaveWithDecay) : List ℝ :=
  if s.total_samples ≤ s.sample_idx then []
  else
    sampleValue s.freq s.duration s.sample_rate s.sample_idx ::
      SquareWaveWithDecay.emit { s with sample_idx := s.sample_idx + 1 }
  termination_by s.total_samples - s.sample_idx
  decreasing_by simp_wf; omega

/-- `Source::current_frame_len` for `SquareWaveWithDecay`
(src/audio.rs lines 133-135): `Some(total_samples - sample_idx)`. -/
def SquareWaveWithDecay.current_frame_len (s : SquareWaveWithDecay) :
    Option Nat :=
  some (s.total_samples - s.sample_idx)

theorem SquareWaveWithDecay.emit_length (s : SquareWaveWithDecay) :
    (SquareWaveWithDecay.emit s).length = s.total_samples - s.sample_idx := by
  generalize hn : s.total_samples - s.sample_idx = n
  induction n generalizing s with
  | zero =>
    rw [SquareWaveWithDecay.emit]
    have h : s.total_samples ≤ s.sample_idx := by omega
    simp [h]
  | succ n ih =>
    rw [SquareWaveWithDecay.emit]
    have h : ¬ s.total_samples ≤ s.sample_idx := by omega
    rw [if_neg h, List.length_cons,
      ih { s with sample_idx := s.sample_idx + 1 } (by simp; omega)]

/-- One observable effect of a playback call on the `rodio` backend:
appending a silence source (`rodio::source::Zero::new(channels, sample_rate)
.take_duration(dur)`), appending a rendered tone source, appending a
`MarioTone` source (mario_animation.rs), or blocking on
`Sink::sleep_until_end`. -/
inductive AudioAction where
  | appendSilence (channels : Nat) (sample_rate : Nat) (dur : Nat)
  | appendTone (source : SquareWaveWithDecay)
  | appendMarioTone (freq : ℚ) (dur : Nat)
  | sleepUntilEnd
deriving DecidableEq, Repr

/-- `AudioManager::play_audio` (src/audio.rs lines 60-80) as the trace of
effects it performs on the backend.  `deviceOk` models
`rodio::OutputStream::try_default()` returning `Ok`; `sinkOk` models
`rodio::Sink::try_new` returning `Ok`.  On either failure the `if let Ok`
guards make the whole call do nothing.  With a working sink the call appends
one source per tone in order (silence for the `freq == 0` sentinel) and then
blocks on `sink.sleep_until_end()` before returning. -/
def AudioManager.play_audio (deviceOk : Bool) (sinkOk : Bool)
    (tones : List (ℚ × Nat)) : List AudioAction :=
  if deviceOk then
    if sinkOk then
      (tones.map fun fd =>
        if fd.1 = 0 then AudioAction.appendSilence 1 44100 fd.2
        else AudioAction.appendTone (SquareWaveWithDecay.new fd.1 fd.2 44100))
      ++ [AudioAction.sleepUntilEnd]
    else []
  else []

/-- The tone list of `AudioManager::play_work_complete_sound`
(src/audio.rs lines 10-18). -/
def workCompleteTones : List (ℚ × Nat) :=
  [(1760, millis 100), (880, millis 100), (440, millis 150), (220, millis 200)]

/-- The tone list of `AudioManager::play_break_complete_music`
(src/audio.rs lines 20-58). -/
def breakCompleteSequence : List (ℚ × Nat) :=
  [(220, millis 150), (440, millis 150), (880, millis 150), (1760, millis 300),
   (0, millis 300),
   (523.25, millis 300), (587.33, millis 300), (659.25, millis 300),
   (698.46, millis 400), (0, millis 100),
   (783.99, millis 300), (880.00, millis 300), (987.77, millis 300),
   (1046.50, millis 500), (0, millis 200),
   (1046.50, millis 250), (987.77, millis 250), (880.00, millis 250),
   (783.99, millis 250), (698.46, millis 300), (659.25, millis 400),
   (0, millis 150),
   (523.25, millis 200), (659.25, millis 200), (783.99, millis 200),
   (1046.50, millis 300), (1174.66, millis 200), (1318.51, millis 600)]

/-- `AudioManager::play_work_complete_sound` (src/audio.rs lines 10-18). -/
def AudioManager.play_work_complete_sound (deviceOk sinkOk : Bool) :
    List AudioAction :=
  AudioManager.play_audio deviceOk sinkOk workCompleteTones

/-- `AudioManager::play_break_complete_music` (src/audio.rs lines 20-58). -/
def AudioManager.play_break_complete_music (deviceOk sinkOk : Bool) :
    List AudioAction :=
  AudioManager.play_audio deviceOk sinkOk breakCompleteSequence

/-- `PomodoroTimer::play_notification` (src/main.rs lines 265-273): the audio
trace produced when a session completes. -/
def PomodoroTimer.play_notification (t : PomodoroTimer)
    (deviceOk sinkOk : Bool) : List AudioAction :=
  match t.current_session.timer_type with
  | TimerType.Work => AudioManager.play_work_complete_sound deviceOk sinkOk
  | TimerType.Break => AudioManager.play_break_complete_music deviceOk sinkOk

/-- `PomodoroTimer::complete_session` (src/main.rs lines 208-234): increments
the completed counter, plays the notification (returned as a trace), raises
the Mario-animation flag for Work completions, then either auto-starts the
opposite interval (Auto mode) or stops the timer in place (Manual mode). -/
def PomodoroTimer.complete_session (t : PomodoroTimer) (now : Nat)
    (deviceOk sinkOk : Bool) : PomodoroTimer × List AudioAction :=
  let t1 := { t with completed_sessions := t.completed_sessions + 1 }
  let trace := t1.play_notification deviceOk sinkOk
  let t2 :=
    if t1.current_session.timer_type = TimerType.Work then
      { t1 with show_mario_animation := true }
    else t1
  match t2.current_session.timer_type, t2.mode with
  | TimerType.Work, TimerMode.Auto => (t2.start_break_session now, trace)
  | TimerType.Break, TimerMode.Auto => (t2.start_work_session now, trace)
  | _, _ =>
    ({ t2 with current_session :=
        { t2.current_session with is_running := false, start_time := none } },
      trace)

/-- One pass of the completion check at the bottom of `main_loop`
(src/main.rs lines 709-712): if the session is running and
`is_timer_finished`, the just-completed interval kind is reported (the
`Completed` event of the specification) and `complete_session` runs;
otherwise nothing happens. -/
def PomodoroTimer.tick (t : PomodoroTimer) (now : Nat)
    (deviceOk sinkOk : Bool) :
    Option TimerType × PomodoroTimer × List AudioAction :=
  if t.current_session.is_running && t.is_timer_finished now then
    let r := t.complete_session now deviceOk sinkOk
    (some t.current_session.timer_type, r.1, r.2)
  else (none, t, [])

/-- Audio half of `MarioAnimation` (src/mario_animation.rs lines 30-36,
76-114): whether the sinks were created and whether the theme already
started.  `sinks_available` models the `Some`/`None` outcome of the audio
initialisation at lines 76-88: sinks exist exactly when both
`OutputStreamBuilder::from_default_device()` and
`open_stream_or_fallback()` succeed. -/
structure MarioAnimationAudio where
  music_started : Bool
  sinks_available : Bool
deriving DecidableEq, Repr

/-- Audio initialisation inside `MarioAnimation::new`
(src/mario_animation.rs lines 76-88). -/
def MarioAnimationAudio.new (builderOk streamOk : Bool) : MarioAnimationAudio :=
  { music_started := false, sinks_available := builderOk && streamOk }

/-- The Mario theme tone list of `start_mario_theme`
(src/mario_animation.rs lines 724-764), as (frequency, milliseconds). -/
def marioTheme : List (ℚ × Nat) :=
  [(659.25, 150), (659.25, 150), (0, 150), (659.25, 150), (0, 150),
   (523.25, 150), (659.25, 150), (0, 150), (783.99, 150), (0, 450),
   (392.00, 150), (0, 450), (523.25, 150), (0, 300), (392.00, 150),
   (0, 300), (329.63, 150), (0, 300), (440.00, 150), (0, 150),
   (493.88, 150), (0, 150), (466.16, 150), (440.00, 150), (0, 150),
   (392.00, 200), (659.25, 200), (783.99, 200), (880.00, 150), (0, 150),
   (698.46, 150), (783.99, 150), (0, 150), (659.25, 150), (0, 150),
   (523.25, 150), (587.33, 150), (493.88, 150), (0, 300)]

/-- `MarioAnimation::start_mario_theme` (src/mario_animation.rs lines
714-779): a no-op trace if the theme already started or if the sinks were
never created (`if let Some(ref sink)`); otherwise appends one source per
theme entry (`MarioTone` for `freq > 0.0`, silence otherwise). -/
def MarioAnimationAudio.start_mario_theme (m : MarioAnimationAudio) :
    MarioAnimationAudio × List AudioAction :=
  if m.music_started then (m, [])
  else
    let m1 := { m with music_started := true }
    if m1.sinks_available then
      (m1, marioTheme.map fun fd =>
        if 0 < fd.1 then AudioAction.appendMarioTone fd.1 (millis fd.2)
        else AudioAction.appendSilence 1 44100 (millis fd.2))
    else (m1, [])

example :
    ((PomodoroTimer.new.start_timer TimerType.Work 0 0).tick 0 true true).1
      = some TimerType.Work := by decide

example :
    (((PomodoroTimer.new.start_timer TimerType.Work 0 0).tick 0 true
      true).2.1).current_session.timer_type = TimerType.Break := by decide

/-- The invariant of claim C6: the running flag agrees with the presence of a
resume instant (`is_running == start_time.is_some()` in src/main.rs). -/
def timerInv (t : PomodoroTimer) : Prop :=
  t.current_session.is_running = t.current_session.start_time.isSome

/-- C7: pause is idempotent and resume is idempotent: from any state, calling
pause twice (at any two instants) leaves the timer identical to a single
pause, and likewise calling resume twice leaves it identical to a single
resume. -/
theorem C7_pause_resume_idempotent (t : PomodoroTimer) (t1 t2 : Nat) :
    (t.pause_timer t1).pause_timer t2 = t.pause_timer t1 ∧
    (t.resume_timer t1).resume_timer t2 = t.resume_timer t1 := by
  constructor
  · by_cases h : t.current_session.is_running
    · cases hs : t.current_session.start_time <;>
        simp [PomodoroTimer.pause_timer, h, hs]
    · simp [PomodoroTimer.pause_timer, h]
  · by_cases h : t.current_session.is_running
    · simp [PomodoroTimer.resume_timer, h]
    · simp [PomodoroTimer.resume_timer, h]

/-- C10: starting a custom session with only work minutes supplied (no break
value) sets the stored break duration to the default 5 minutes (300 seconds),
whatever break duration an earlier custom session had configured. -/
theorem C10_custom_session_default_break (t : PomodoroTimer)
    (work_mins now : Nat) :
    (t.start_custom_session work_mins none now).custom_break_duration
      = 5 * 60 := by
  rfl

/-- C2 counterexample: the claim says `play_audio` never blocks the caller
waiting for playback of the enqueued samples; but already for a one-tone
sequence the call's effect trace contains the blocking
`sink.sleep_until_end()` step (src/audio.rs line 77), i.e. the call waits for
playback completion before returning. -/
theorem C2_counterexample :
    AudioAction.sleepUntilEnd ∈
      AudioManager.play_audio true true [((440 : ℚ), millis 100)] := by
  simp [AudioManager.play_audio]

/-- C2 (amended): with the output device and sink opened, `play_audio`
enqueues one source per tone in sequence order and then blocks the caller on
`sleep_until_end` until playback completes; it returns only after that
blocking step, not as soon as the tones are enqueued. -/
theorem C2_play_audio_blocks_until_end (tones : List (ℚ × Nat)) :
    (AudioManager.play_audio true true tones).getLast?
        = some AudioAction.sleepUntilEnd ∧
    (AudioManager.play_audio true true tones).dropLast
      = tones.map (fun fd =>
          if fd.1 = 0 then AudioAction.appendSilence 1 44100 fd.2
          else AudioAction.appendTone (SquareWaveWithDecay.new fd.1 fd.2 44100)) := by
  constructor
  · simp [AudioManager.play_audio]
  · simp [AudioManager.play_audio]

/-- C8: if the audio output device cannot be opened, every playback operation
is a no-op trace (and never an error): `play_audio` appends nothing when the
stream or the sink cannot be created, the Mario theme appends nothing when
the animation's sinks were never created, and the timer state reached by
`complete_session` and the event and state produced by the completion check
are identical with and without working audio hardware. -/
theorem C8_audio_failure_noop (t : PomodoroTimer) (now : Nat) (sinkOk : Bool)
    (tones : List (ℚ × Nat)) :
    AudioManager.play_audio false sinkOk tones = [] ∧
    AudioManager.play_audio true false tones = [] ∧
    ((MarioAnimationAudio.new false sinkOk).start_mario_theme).2 = [] ∧
    (t.complete_session now false sinkOk).1
        = (t.complete_session now true true).1 ∧
    (t.tick now false sinkOk).1 = (t.tick now true true).1 ∧
    (t.tick now false sinkOk).2.1 = (t.tick now true true).2.1 := by
  have hm : ∀ dOk sOk, (t.complete_session now dOk sOk).1
      = (t.complete_session now true true).1 := by
    intro dOk sOk
    cases ht : t.current_session.timer_type <;>
      cases hmo : t.mode <;>
        simp [PomodoroTimer.complete_session, ht, hmo]
  refine ⟨rfl, ?_, ?_, hm false sinkOk, ?_, ?_⟩
  · simp [AudioManager.play_audio]
  · simp [MarioAnimationAudio.start_mario_theme, MarioAnimationAudio.new]
  · by_cases h : t.current_session.is_running && t.is_timer_finished now <;>
      simp [PomodoroTimer.tick, h]
  · by_cases h : t.current_session.is_running && t.is_timer_finished now <;>
      simp [PomodoroTimer.tick, h, hm false sinkOk]

theorem complete_session_manual_state (t : PomodoroTimer) (now : Nat)
    (dOk sOk : Bool) (h : t.mode = TimerMode.Manual) :
    ((t.complete_session now dOk sOk).1).current_session
      = { t.current_session with is_running := false, start_time := none } := by
  cases ht : t.current_session.timer_type <;>
    simp [PomodoroTimer.complete_session, ht, h]

theorem complete_session_auto_state (t : PomodoroTimer) (now : Nat)
    (dOk sOk : Bool) (h : t.mode = TimerMode.Auto) :
    ((t.complete_session now dOk sOk).1).current_session
      = { timer_type := (t.current_session.timer_type).opposite
          duration :=
            match t.current_session.timer_type with
            | TimerType.Work => t.custom_break_duration
            | TimerType.Break => t.custom_work_duration
          elapsed := 0
          is_running := true
          start_time := some now } := by
  cases ht : t.current_session.timer_type <;>
    simp [PomodoroTimer.complete_session, PomodoroTimer.start_break_session,
      PomodoroTimer.start_work_session, PomodoroTimer.start_timer,
      TimerType.opposite, ht, h]

theorem tick_none_of_not_running (t : PomodoroTimer) (now : Nat)
    (dOk sOk : Bool) (h : t.current_session.is_running = false) :
    (t.tick now dOk sOk).1 = none := by
  simp [PomodoroTimer.tick, h]

/-- C6: the invariant `running == resumed_at.is_some()` (in the code,
`is_running == start_time.is_some()`) holds initially and is preserved by
start (plain and custom), pause, resume, toggle, and session completion in
both modes. -/
theorem C6_running_iff_start_time :
    timerInv PomodoroTimer.new ∧
    (∀ t ty d now, timerInv (PomodoroTimer.start_timer t ty d now)) ∧
    (∀ t w b now, timerInv (PomodoroTimer.start_custom_session t w b now)) ∧
    (∀ (t : PomodoroTimer) now, timerInv t → timerInv (t.pause_timer now)) ∧
    (∀ (t : PomodoroTimer) now, timerInv t → timerInv (t.resume_timer now)) ∧
    (∀ (t : PomodoroTimer) now, timerInv t → timerInv (t.toggle_timer now)) ∧
    (∀ (t : PomodoroTimer) now dOk sOk,
      timerInv ((t.complete_session now dOk sOk).1)) := by
  have hp : ∀ (t : PomodoroTimer) now, timerInv t →
      timerInv (t.pause_timer now) := by
    intro t now h
    by_cases hr : t.current_session.is_running
    · cases hs : t.current_session.start_time <;>
        simp [PomodoroTimer.pause_timer, timerInv, hr, hs]
    · simpa [PomodoroTimer.pause_timer, hr] using h
  have hres : ∀ (t : PomodoroTimer) now, timerInv t →
      timerInv (t.resume_timer now) := by
    intro t now h
    by_cases hr : t.current_session.is_running
    · simpa [PomodoroTimer.resume_timer, hr] using h
    · simp [PomodoroTimer.resume_timer, timerInv, hr]
  refine ⟨rfl, fun t ty d now => rfl, ?_, hp, hres, ?_, ?_⟩
  · intro t w b now
    cases b <;> rfl
  · intro t now h
    by_cases hr : t.current_session.is_running
    · simpa [PomodoroTimer.toggle_timer, hr] using hp t now h
    · simpa [PomodoroTimer.toggle_timer, hr] using hres t now h
  · intro t now dOk sOk
    cases hmo : t.mode
    · have := complete_session_auto_state t now dOk sOk hmo
      simp [timerInv, this]
    · have := complete_session_manual_state t now dOk sOk hmo
      simp [timerInv, this]

/-- C6 witness: the invariant propagated through concrete operations on the
freshly created timer. -/
theorem C6_witness :
    timerInv (PomodoroTimer.new.pause_timer 5) ∧
    timerInv ((PomodoroTimer.new.resume_timer 3).toggle_timer 7) :=
  ⟨C6_running_iff_start_time.2.2.2.1 PomodoroTimer.new 5 rfl,
   C6_running_iff_start_time.2.2.2.2.2.1 (PomodoroTimer.new.resume_timer 3) 7
     (C6_running_iff_start_time.2.2.2.2.1 PomodoroTimer.new 3 rfl)⟩

/-- A concrete Manual-mode run: mode toggled to Manual, then a Work interval
of duration 2 started at instant 0 and never paused. -/
def manualRunExample : PomodoroTimer :=
  (PomodoroTimer.new.toggle_mode).start_timer TimerType.Work 2 0

/-- C1 counterexample: in the Manual run above the completion check at
instant 3 fires (the interval of duration 2 is over), but afterwards the
remaining-time query returns 2 — the full duration — not 0, because
`complete_session` discards the time since the last resume instead of folding
it into `elapsed` (src/main.rs lines 228-232 never touch `elapsed`). -/
theorem C1_counterexample :
    (manualRunExample.tick 3 true true).1 = some TimerType.Work ∧
    ((manualRunExample.tick 3 true true).2.1).remaining_time 4 = 2 ∧
    ((manualRunExample.tick 3 true true).2.1).remaining_time 4 ≠ 0 := by
  refine ⟨by decide, by decide, by decide⟩

/-- C1 (amended): for every interval completed in Manual mode, the completion
transition sets `running = false` and `resumed_at = None` and leaves
`accumulated` at its value as of the last pause — the running segment since
the last resume is discarded, not folded in — so that afterwards the
remaining-time query returns `total_duration - accumulated` (the full
duration, if the interval was never paused), and the interval kind and
duration are unchanged until an explicit start. -/
theorem C1_manual_complete_halts (t : PomodoroTimer) (now : Nat)
    (deviceOk sinkOk : Bool) (h : t.mode = TimerMode.Manual) :
    ((t.complete_session now deviceOk sinkOk).1).current_session.is_running
        = false ∧
    ((t.complete_session now deviceOk sinkOk).1).current_session.start_time
        = none ∧
    ((t.complete_session now deviceOk sinkOk).1).current_session.elapsed
        = t.current_session.elapsed ∧
    ((t.complete_session now deviceOk sinkOk).1).current_session.timer_type
        = t.current_session.timer_type ∧
    ((t.complete_session now deviceOk sinkOk).1).current_session.duration
        = t.current_session.duration ∧
    (∀ now2, ((t.complete_session now deviceOk sinkOk).1).remaining_time now2
        = t.current_session.duration - t.current_session.elapsed) := by
  have hs := complete_session_manual_state t now deviceOk sinkOk h
  refine ⟨by simp [hs], by simp [hs], by simp [hs], by simp [hs],
    by simp [hs], ?_⟩
  intro now2
  simp [PomodoroTimer.remaining_time, PomodoroTimer.get_timer_progress, hs]

/-- C1 witness: the amended statement evaluated on the concrete Manual run:
after completion the timer is halted and the display shows the full
duration 2 remaining. -/
theorem C1_manual_witness :
    ((manualRunExample.complete_session 3 true true).1).current_session.is_running
        = false ∧
    ((manualRunExample.complete_session 3 true true).1).remaining_time 3 = 2 := by
  have h := C1_manual_complete_halts manualRunExample 3 true true rfl
  exact ⟨h.1, by rw [h.2.2.2.2.2 3]; rfl⟩

/-- A concrete Auto-mode run: the default timer with a Work interval of
duration 0 started at instant 0 (the specification's auto-cycle scenario). -/
def autoRunExample : PomodoroTimer :=
  PomodoroTimer.new.start_timer TimerType.Work 0 0

/-- C5: for every completion in Auto mode, the timer immediately starts the
opposite interval kind (Work completion starts Break with the configured
break duration, Break completion starts Work with the configured work
duration) with elapsed reset to zero, the running flag set, and the resume
instant set to the completion instant. -/
theorem C5_auto_complete_starts_opposite (t : PomodoroTimer) (now : Nat)
    (deviceOk sinkOk : Bool) (h : t.mode = TimerMode.Auto) :
    ((t.complete_session now deviceOk sinkOk).1).current_session.timer_type
        = (t.current_session.timer_type).opposite ∧
    ((t.complete_session now deviceOk sinkOk).1).current_session.elapsed = 0 ∧
    ((t.complete_session now deviceOk sinkOk).1).current_session.is_running
        = true ∧
    ((t.complete_session now deviceOk sinkOk).1).current_session.start_time
        = some now ∧
    ((t.complete_session now deviceOk sinkOk).1).current_session.duration
        = (match t.current_session.timer_type with
           | TimerType.Work => t.custom_break_duration
           | TimerType.Break => t.custom_work_duration) := by
  have hs := complete_session_auto_state t now deviceOk sinkOk h
  exact ⟨by simp [hs], by simp [hs], by simp [hs], by simp [hs], by simp [hs]⟩

/-- C5 witness: completing a zero-duration Work interval in Auto mode leaves
the timer running a Break interval with elapsed 0 (the specification's
auto-cycle scenario). -/
theorem C5_witness :
    ((autoRunExample.complete_session 0 true true).1).current_session.timer_type
        = TimerType.Break ∧
    ((autoRunExample.complete_session 0 true true).1).current_session.is_running
        = true ∧
    ((autoRunExample.complete_session 0 true true).1).current_session.elapsed
        = 0 := by
  have h := C5_auto_complete_starts_opposite autoRunExample 0 true true rfl
  exact ⟨h.1, h.2.2.1, h.2.1⟩

theorem tick_event_eq (t : PomodoroTimer) (now : Nat) (dOk sOk : Bool) :
    (t.tick now dOk sOk).1
      = if t.current_session.is_running = true ∧
           (t.get_timer_progress now).2 ≤ (t.get_timer_progress now).1
        then some t.current_session.timer_type else none := by
  unfold PomodoroTimer.tick PomodoroTimer.is_timer_finished
  by_cases hr : t.current_session.is_running <;>
    by_cases hf : (t.get_timer_progress now).2 ≤ (t.get_timer_progress now).1 <;>
      simp [hr, hf]

theorem tick_state_of_fired (t : PomodoroTimer) (now : Nat) (dOk sOk : Bool)
    (h : ((t.tick now dOk sOk).1).isSome = true) :
    (t.tick now dOk sOk).2.1 = (t.complete_session now dOk sOk).1 := by
  by_cases hc : (t.current_session.is_running && t.is_timer_finished now) = true
  · simp [PomodoroTimer.tick, hc]
  · exfalso
    rw [PomodoroTimer.tick, if_neg hc] at h
    simp at h

theorem tick_event_of_fresh_session (t : PomodoroTimer) (now : Nat)
    (dOk sOk : Bool) (hrun : t.current_session.is_running = true)
    (hst : t.current_session.start_time = some now)
    (hel : t.current_session.elapsed = 0) :
    (t.tick now dOk sOk).1
      = if t.current_session.duration = 0
        then some t.current_session.timer_type else none := by
  rw [tick_event_eq]
  have hp : t.get_timer_progress now = (0, t.current_session.duration) := by
    simp [PomodoroTimer.get_timer_progress, hrun, hst, hel]
  rw [hp]
  by_cases hd : t.current_session.duration = 0
  · simp [hrun, hd]
  · simp [hrun, hd, Nat.le_zero]

/-- C4: the completion check of the main loop fires an event exactly when the
effective elapsed time has reached the total duration and the timer is
running, and it fires at most once per interval: after a firing check, an
immediately repeated check fires nothing in Manual mode (at any later
instant), and in Auto mode an immediately repeated check either fires nothing
or fires for the newly started opposite interval (never again for the
completed one); in particular it fires nothing whenever the next interval's
configured duration is positive. -/
theorem C4_completion_event_exactly_once (t : PomodoroTimer)
    (now now2 : Nat) (deviceOk sinkOk : Bool) :
    ((t.tick now deviceOk sinkOk).1
       = if t.current_session.is_running = true ∧
            (t.get_timer_progress now).2 ≤ (t.get_timer_progress now).1
         then some t.current_session.timer_type else none) ∧
    (t.mode = TimerMode.Manual →
      ∀ k, (t.tick now deviceOk sinkOk).1 = some k →
        (((t.tick now deviceOk sinkOk).2.1).tick now2 deviceOk sinkOk).1
          = none) ∧
    (t.mode = TimerMode.Auto →
      ∀ k, (t.tick now deviceOk sinkOk).1 = some k →
        ((((t.tick now deviceOk sinkOk).2.1).tick now deviceOk sinkOk).1 = none
         ∨ (((t.tick now deviceOk sinkOk).2.1).tick now deviceOk sinkOk).1
             = some k.opposite) ∧
        (0 < (match k with
              | TimerType.Work => t.custom_break_duration
              | TimerType.Break => t.custom_work_duration) →
          (((t.tick now deviceOk sinkOk).2.1).tick now deviceOk sinkOk).1
            = none)) := by
  refine ⟨tick_event_eq t now deviceOk sinkOk, ?_, ?_⟩
  · intro hm k hk
    have hst : (t.tick now deviceOk sinkOk).2.1
        = (t.complete_session now deviceOk sinkOk).1 :=
      tick_state_of_fired t now deviceOk sinkOk (by rw [hk]; rfl)
    apply tick_none_of_not_running
    rw [hst, complete_session_manual_state t now deviceOk sinkOk hm]
  · intro ha k hk
    have he := tick_event_eq t now deviceOk sinkOk
    rw [hk] at he
    by_cases hc : t.current_session.is_running = true ∧
        (t.get_timer_progress now).2 ≤ (t.get_timer_progress now).1
    · rw [if_pos hc] at he
      have hk2 : k = t.current_session.timer_type := Option.some.inj he
      have hstate : (t.tick now deviceOk sinkOk).2.1
          = (t.complete_session now deviceOk sinkOk).1 :=
        tick_state_of_fired t now deviceOk sinkOk (by rw [hk]; rfl)
      have hs := complete_session_auto_state t now deviceOk sinkOk ha
      have hsecond := tick_event_of_fresh_session
          ((t.tick now deviceOk sinkOk).2.1) now deviceOk sinkOk
          (by rw [hstate, hs]) (by rw [hstate, hs]) (by rw [hstate, hs])
      rw [hstate, hs] at hsecond
      cases k with
      | Work =>
        rw [← hk2] at hsecond
        simp only [TimerType.opposite] at hsecond ⊢
        refine ⟨?_, ?_⟩
        · by_cases hz : t.custom_break_duration = 0
          · right
            rw [hstate, hsecond, if_pos hz]
          · left
            rw [hstate, hsecond, if_neg hz]
        · intro hpos
          have hpos2 : 0 < t.custom_break_duration := hpos
          rw [hstate, hsecond, if_neg (by omega)]
      | Break =>
        rw [← hk2] at hsecond
        simp only [TimerType.opposite] at hsecond ⊢
        refine ⟨?_, ?_⟩
        · by_cases hz : t.custom_work_duration = 0
          · right
            rw [hstate, hsecond, if_pos hz]
          · left
            rw [hstate, hsecond, if_neg hz]
        · intro hpos
          have hpos2 : 0 < t.custom_work_duration := hpos
          rw [hstate, hsecond, if_neg (by omega)]
    · rw [if_neg hc] at he
      exact absurd he (Option.some_ne_none k)

/-- C4 witness: a Manual-mode Work interval of duration 2 started at instant
0: the completion check at instant 3 fires, and the immediately following
check does not fire again. -/
theorem C4_witness :
    ((((PomodoroTimer.new.toggle_mode).start_timer TimerType.Work 2 0).tick 3
        true true).1 = some TimerType.Work) ∧
    ((((((PomodoroTimer.new.toggle_mode).start_timer TimerType.Work 2 0).tick 3
        true true).2.1).tick 4 true true).1 = none) := by
  have h := C4_completion_event_exactly_once
      ((PomodoroTimer.new.toggle_mode).start_timer TimerType.Work 2 0) 3 4
      true true
  exact ⟨by decide, h.2.1 rfl TimerType.Work (by decide)⟩

/-- C3 counterexample: the claim says the rendered sample count is
`round(duration_in_seconds * sample_rate)`, but `SquareWaveWithDecay::new`
truncates (`as usize`).  For a 1.5-second duration at sample rate 1 the code
produces 1 sample while `round(1.5 * 1) = 2`.  At these inputs every
intermediate `f32` value (0.5, 1.5) is exactly representable, so the exact
rational model coincides with the Rust computation. -/
theorem C3_counterexample :
    ((SquareWaveWithDecay.new 440 1500000000 1).emit).length = 1 ∧
    round (durationAsSecs 1500000000 * ((1 : Nat) : ℚ)) = (2 : ℤ) ∧
    (((SquareWaveWithDecay.new 440 1500000000 1).emit).length : ℤ)
      ≠ round (durationAsSecs 1500000000 * ((1 : Nat) : ℚ)) := by
  have h1 : ((SquareWaveWithDecay.new 440 1500000000 1).emit).length = 1 := by
    rw [SquareWaveWithDecay.emit_length]
    simp only [SquareWaveWithDecay.new]
    norm_num [durationAsSecs]
  have h2 : round (durationAsSecs 1500000000 * ((1 : Nat) : ℚ)) = (2 : ℤ) := by
    norm_num [durationAsSecs, round_eq]
  refine ⟨h1, h2, ?_⟩
  rw [h1, h2]
  norm_num

/-- C3 (amended): for every frequency, duration and sample rate, the rendered
tone produces exactly `trunc(duration_in_seconds * sample_rate)` samples
(truncation toward zero, not rounding) and then ends (`next` returns `none`
exactly once `sample_idx` reaches `total_samples`), and the remaining-length
report `current_frame_len` equals the number of samples still to be
produced. -/
theorem C3_render_sample_count (freq : ℚ) (dur sr : Nat)
    (s : SquareWaveWithDecay) :
    ((SquareWaveWithDecay.new freq dur sr).emit).length
        = Int.toNat ⌊durationAsSecs dur * (sr : ℚ)⌋ ∧
    s.current_frame_len = some ((SquareWaveWithDecay.emit s).length) ∧
    (((SquareWaveWithDecay.next s).1 = none) ↔ s.total_samples ≤ s.sample_idx) := by
  refine ⟨?_, ?_, ?_⟩
  · rw [SquareWaveWithDecay.emit_length]
    rfl
  · rw [SquareWaveWithDecay.emit_length, SquareWaveWithDecay.current_frame_len]
  · by_cases hcond : s.total_samples ≤ s.sample_idx
    · simp [SquareWaveWithDecay.next, hcond]
    · simp [SquareWaveWithDecay.next, hcond]
